import Mathlib

/-!
Shallow embedding of the x86 VMX hypervisor core
(`kernel/arch/x86/hypervisor.cpp`): status codes, bitfield helpers,
the VMCS control-field helper, I/O exit-qualification decoding, the
VM-exit dispatcher, per-CPU VMX enablement, guest CR3/entry setters,
the per-CPU `Enter` state machine and the scoped-VMCS-load interrupt
discipline.  Machine integers are modelled as `Nat` with explicit
masking/modulus where the C++ unsigned types truncate.
-/

namespace Hv

/-- `status_t` error surface of the kernel (`magenta/errors.h`). -/
inductive status_t where
  | NO_ERROR
  | ERR_INTERNAL
  | ERR_NOT_SUPPORTED
  | ERR_NO_MEMORY
  | ERR_INVALID_ARGS
  | ERR_BAD_STATE
  deriving DecidableEq, Repr

open status_t

/-- `BITS(x, high, low)` from `bits.h`: the bits of `x` in positions
`low..high`, kept in place (not shifted down). -/
def BITS (x high low : Nat) : Nat := x &&& (2 ^ (high + 1) - 2 ^ low)

/-- `BITS_SHIFT(x, high, low)` from `bits.h`: bits `low..high` of `x`,
shifted down to position 0. -/
def BITS_SHIFT (x high low : Nat) : Nat := (x >>> low) &&& (2 ^ (high - low + 1) - 1)

/-- `BIT_SHIFT(x, bit)` from `bits.h`, converted to `bool` as the C++
sources do when assigning to a `bool` field. -/
def BIT_SHIFT (x bit : Nat) : Bool := ((x >>> bit) &&& 1) == 1

/-- Two's-complement `~` on a `uint32_t` value. -/
def compl32 (x : Nat) : Nat := (2 ^ 32 - 1) ^^^ x

/-- Two's-complement `~` on a `uint64_t` value. -/
def compl64 (x : Nat) : Nat := (2 ^ 64 - 1) ^^^ x

def PAGE_SIZE : Nat := 4096

/-- `set_vmcs_control(controls, true_msr, old_msr, set, clear)`:
validates the requested set/clear masks against the capability MSR and,
on success, returns the 32-bit value written to the control field
(`allowed_0 | defaults | set`).  The VMCS field identifier plays no role
in the computation and is dropped.  Returns the status paired with
`some written_value` exactly when the code reaches `vmcs_write`. -/
def set_vmcs_control (true_msr old_msr set clear : Nat) : status_t × Option Nat :=
  let allowed_0 := BITS true_msr 31 0
  let allowed_1 := BITS_SHIFT true_msr 63 32
  if (allowed_1 &&& set) ≠ set then
    (ERR_NOT_SUPPORTED, none)
  else if (compl32 allowed_0 &&& clear) ≠ clear then
    (ERR_NOT_SUPPORTED, none)
  else if (set &&& clear) ≠ 0 then
    (ERR_INVALID_ARGS, none)
  else
    let flexible := allowed_0 ^^^ allowed_1
    let unknown := flexible &&& compl32 (set ||| clear)
    let defaults := unknown &&& BITS old_msr 31 0
    (NO_ERROR, some (allowed_0 ||| defaults ||| set))

/-- `IoInfo`: decode of the exit qualification for I/O instruction
exits.  The C++ field `repeat` is named `rep` here (`repeat` is
reserved in Lean). -/
structure IoInfo where
  bytes : Nat
  input : Bool
  string : Bool
  rep : Bool
  port : Nat
  deriving DecidableEq, Repr

/-- `IoInfo::IoInfo(uint64_t qualification)`. -/
def IoInfo.decode (qualification : Nat) : IoInfo :=
  { bytes := BITS qualification 2 0 + 1
    input := BIT_SHIFT qualification 3
    string := BIT_SHIFT qualification 4
    rep := BIT_SHIFT qualification 5
    port := BITS_SHIFT qualification 31 16 }

/-- VM-exit reasons dispatched by `vmexit_handler`; all reasons not
handled explicitly fall into `other`. -/
inductive ExitReason where
  | EXTERNAL_INTERRUPT
  | CPUID
  | IO_INSTRUCTION
  | WRMSR
  | other (n : Nat)
  deriving DecidableEq, Repr

/-- The fields of `ExitInfo` the dispatcher reads (the full structure
also snapshots interruption/address fields that no handler consumes). -/
structure ExitInfo where
  exit_reason : ExitReason
  exit_qualification : Nat
  instruction_length : Nat
  guest_rip : Nat
  deriving DecidableEq, Repr

/-- The guest general-purpose registers the exit handlers touch
(`GuestState` holds `rax…r15`; only these four are read or written). -/
structure GuestState where
  rax : Nat
  rbx : Nat
  rcx : Nat
  rdx : Nat
  deriving DecidableEq, Repr

/-- Result of the host `cpuid` instruction for one leaf: four 32-bit
outputs. -/
structure CpuidLeaf where
  eax : Nat
  ebx : Nat
  ecx : Nat
  edx : Nat
  deriving DecidableEq, Repr

/-- A 32-bit store through `(uint32_t*)&reg` into the low dword of a
64-bit register slot: the high 32 bits survive, the low 32 bits become
`v` (truncated to 32 bits). -/
def write_low32 (r v : Nat) : Nat := (r >>> 32) * 2 ^ 32 + v % 2 ^ 32

/-- `next_rip(exit_info)`: the value written to `GUEST_RIP`,
`guest_rip + instruction_length` with 64-bit wraparound. -/
def next_rip (e : ExitInfo) : Nat := (e.guest_rip + e.instruction_length) % 2 ^ 64

def X86_CPUID_BASE : Nat := 0

/-- `handle_cpuid(exit_info, guest_state)`: returns the status, the new
guest state, and `some v` when `GUEST_RIP` was written with `v` (`none`
when it was left untouched).  `host` is the host CPU's `cpuid`
responses, indexed by leaf. -/
def handle_cpuid (host : Nat → CpuidLeaf) (e : ExitInfo) (gs : GuestState) :
    status_t × GuestState × Option Nat :=
  if gs.rax = X86_CPUID_BASE then
    let leaf := host X86_CPUID_BASE
    let gs1 : GuestState :=
      { rax := write_low32 gs.rax leaf.eax
        rbx := write_low32 gs.rbx leaf.ebx
        rcx := write_low32 gs.rcx leaf.ecx
        rdx := write_low32 gs.rdx leaf.edx }
    let gs2 : GuestState := { gs1 with rax := 0 }
    (NO_ERROR, gs2, some (next_rip e))
  else
    (ERR_NOT_SUPPORTED, gs, none)

def kUartIoPort : Nat := 0x3f8

/-- The low `n` bytes of `rax` in memory order (little endian), as
passed to `FifoDispatcher::Write` via `(uint8_t*)&guest_state->rax`. -/
def rax_bytes (rax n : Nat) : List Nat :=
  (List.range n).map fun k => (rax >>> (8 * k)) &&& 0xff

/-- Observable outcome of one `vmexit_handler` call: the returned
status, the guest register file, the value written to `GUEST_RIP` (if
any), and the bytes pushed into the serial FIFO (if any). -/
structure HandlerResult where
  status : status_t
  guest : GuestState
  guest_rip_write : Option Nat
  fifo_written : List Nat
  deriving DecidableEq, Repr

/-- `vmexit_handler(vmx_state, guest_state, serial_fifo)`: dispatch on
the exit reason.  `fifoWrite` models `serial_fifo->Write`: the status
the FIFO returns for a given byte sequence. -/
def vmexit_handler (host : Nat → CpuidLeaf) (fifoWrite : List Nat → status_t)
    (e : ExitInfo) (gs : GuestState) : HandlerResult :=
  match e.exit_reason with
  | .EXTERNAL_INTERRUPT =>
    -- briefly re-enables then disables interrupts; no guest-visible effect
    ⟨NO_ERROR, gs, none, []⟩
  | .CPUID =>
    let (s, gs', rip) := handle_cpuid host e gs
    ⟨s, gs', rip, []⟩
  | .IO_INSTRUCTION =>
    let rip := next_rip e
    let io := IoInfo.decode e.exit_qualification
    if io.input || io.string || io.rep || io.port != kUartIoPort then
      ⟨NO_ERROR, gs, some rip, []⟩
    else
      let data := rax_bytes gs.rax io.bytes
      ⟨fifoWrite data, gs, some rip, data⟩
  | .WRMSR =>
    ⟨ERR_NOT_SUPPORTED, gs, none, []⟩
  | .other _ =>
    ⟨ERR_NOT_SUPPORTED, gs, none, []⟩

def VMX_MEMORY_TYPE_WRITE_BACK : Nat := 6

/-- `VmxInfo` (named `VmxBasicInfo` in the spec): decode of the VMX
basic capability MSR (`VmxInfo::VmxInfo`). -/
structure VmxInfo where
  revision_id : Nat
  region_size : Nat
  write_back : Bool
  io_exit_info : Bool
  vmx_controls : Bool
  deriving DecidableEq, Repr

def VmxInfo.decode (basic_info : Nat) : VmxInfo :=
  { revision_id := BITS basic_info 30 0
    region_size := BITS_SHIFT basic_info 44 32
    write_back := BITS_SHIFT basic_info 53 50 == VMX_MEMORY_TYPE_WRITE_BACK
    io_exit_info := BIT_SHIFT basic_info 54
    vmx_controls := BIT_SHIFT basic_info 55 }

/-- `MiscInfo::MiscInfo`. -/
structure MiscInfo where
  wait_for_sipi : Bool
  msr_list_limit : Nat
  deriving DecidableEq, Repr

def MiscInfo.decode (misc_info : Nat) : MiscInfo :=
  { wait_for_sipi := BIT_SHIFT misc_info 8
    msr_list_limit := (BITS_SHIFT misc_info 27 25 + 1) * 512 }

/-- `EptInfo::EptInfo`. -/
structure EptInfo where
  page_walk_4 : Bool
  write_back : Bool
  pde_2mb_page : Bool
  pdpe_1gb_page : Bool
  ept_flags : Bool
  exit_info : Bool
  invept : Bool
  deriving DecidableEq, Repr

def EptInfo.decode (ept_info : Nat) : EptInfo :=
  { page_walk_4 := BIT_SHIFT ept_info 6
    write_back := BIT_SHIFT ept_info 14
    pde_2mb_page := BIT_SHIFT ept_info 16
    pdpe_1gb_page := BIT_SHIFT ept_info 17
    ept_flags := BIT_SHIFT ept_info 21
    exit_info := BIT_SHIFT ept_info 22
    invept := BIT_SHIFT ept_info 20 && BIT_SHIFT ept_info 25 && BIT_SHIFT ept_info 26 }

/-- Bit values per the Intel SDM; the defining kernel header is outside
this repository's sources. -/
def X86_MSR_IA32_FEATURE_CONTROL_LOCK : Nat := 1

def X86_MSR_IA32_FEATURE_CONTROL_VMXON : Nat := 4

def X86_CR4_VMXE : Nat := 2 ^ 13

/-- `cr_is_invalid(cr_value, fixed0_msr, fixed1_msr)` with the two MSR
reads replaced by their values: a bit must be 1 where FIXED0 has 1 and
0 where FIXED1 has 0. -/
def cr_is_invalid (cr_value fixed0 fixed1 : Nat) : Bool :=
  compl64 (cr_value ||| compl64 fixed0) != 0 || compl64 (compl64 cr_value ||| fixed1) != 0

/-- The per-CPU machine state `vmx_enable` consults: the capability
MSRs, the feature-control MSR, the control registers, the CR fixed-bit
MSRs, and the hardware outcome of the VMXON instruction. -/
structure Machine where
  msr_vmx_basic : Nat
  msr_vmx_misc : Nat
  msr_ept_vpid_cap : Nat
  feature_control : Nat
  cr0 : Nat
  cr4 : Nat
  cr0_fixed0 : Nat
  cr0_fixed1 : Nat
  cr4_fixed0 : Nat
  cr4_fixed1 : Nat
  vmxon_ok : Bool
  deriving DecidableEq, Repr

/-- Observable outcome of `vmx_enable`: the returned status, the value
written to the feature-control MSR (if any), the value written to CR4
(if any), and the resulting `is_on_` flag of the `VmxonPerCpu`. -/
structure EnableResult where
  status : status_t
  fc_write : Option Nat
  cr4_write : Option Nat
  is_on : Bool
  deriving DecidableEq, Repr

/-- Tail of `vmx_enable` after the feature-control MSR has been
handled: CR0/CR4 fixed-bit validation, `x86_set_cr4`, and
`VmxonPerCpu::VmxOn` (which sets `is_on_` iff VMXON succeeded). -/
def vmx_enable_rest (m : Machine) (fc_write : Option Nat) : EnableResult :=
  if cr_is_invalid m.cr0 m.cr0_fixed0 m.cr0_fixed1 then
    ⟨ERR_BAD_STATE, fc_write, none, false⟩
  else
    let cr4 := m.cr4 ||| X86_CR4_VMXE
    if cr_is_invalid cr4 m.cr4_fixed0 m.cr4_fixed1 then
      ⟨ERR_BAD_STATE, fc_write, none, false⟩
    else if m.vmxon_ok then
      ⟨NO_ERROR, fc_write, some cr4, true⟩
    else
      ⟨ERR_INTERNAL, fc_write, some cr4, false⟩

/-- `vmx_enable(arg)`: per-CPU VMX bring-up. -/
def vmx_enable (m : Machine) : EnableResult :=
  let vmx_info := VmxInfo.decode m.msr_vmx_basic
  let ept_info := EptInfo.decode m.msr_ept_vpid_cap
  let misc_info := MiscInfo.decode m.msr_vmx_misc
  if !vmx_info.io_exit_info then ⟨ERR_NOT_SUPPORTED, none, none, false⟩
  else if !vmx_info.vmx_controls then ⟨ERR_NOT_SUPPORTED, none, none, false⟩
  else if !ept_info.page_walk_4 then ⟨ERR_NOT_SUPPORTED, none, none, false⟩
  else if !ept_info.write_back then ⟨ERR_NOT_SUPPORTED, none, none, false⟩
  else if !ept_info.ept_flags then ⟨ERR_NOT_SUPPORTED, none, none, false⟩
  else if !ept_info.invept then ⟨ERR_NOT_SUPPORTED, none, none, false⟩
  else if !misc_info.wait_for_sipi then ⟨ERR_NOT_SUPPORTED, none, none, false⟩
  else
    let fc := m.feature_control
    if fc &&& X86_MSR_IA32_FEATURE_CONTROL_LOCK = 0 ∨
        fc &&& X86_MSR_IA32_FEATURE_CONTROL_VMXON = 0 then
      if fc &&& X86_MSR_IA32_FEATURE_CONTROL_LOCK ≠ 0 ∧
          fc &&& X86_MSR_IA32_FEATURE_CONTROL_VMXON = 0 then
        ⟨ERR_NOT_SUPPORTED, none, none, false⟩
      else
        vmx_enable_rest m
          (some (fc ||| X86_MSR_IA32_FEATURE_CONTROL_LOCK |||
                 X86_MSR_IA32_FEATURE_CONTROL_VMXON))
    else
      vmx_enable_rest m none

/-- The seven capability checks at the head of `vmx_enable`. -/
def vmx_enable_caps_ok (m : Machine) : Bool :=
  let vmx_info := VmxInfo.decode m.msr_vmx_basic
  let ept_info := EptInfo.decode m.msr_ept_vpid_cap
  let misc_info := MiscInfo.decode m.msr_vmx_misc
  vmx_info.io_exit_info && vmx_info.vmx_controls && ept_info.page_walk_4 &&
    ept_info.write_back && ept_info.ept_flags && ept_info.invept && misc_info.wait_for_sipi

/-- The `VmcsContext` fields `set_cr3`/`set_entry` touch: the stored
guest CR3 and entry RIP and the guest physical address-space size. -/
structure VmcsContextState where
  cr3 : Nat
  entry : Nat
  gpas_size : Nat
  deriving DecidableEq, Repr

/-- `VmcsContext::set_cr3(guest_cr3)`.  `gpas_->size() - PAGE_SIZE` is
`size_t` arithmetic, so the subtraction wraps modulo `2^64`. -/
def set_cr3 (s : VmcsContextState) (guest_cr3 : Nat) : status_t × VmcsContextState :=
  if guest_cr3 ≥ (s.gpas_size + 2 ^ 64 - PAGE_SIZE) % 2 ^ 64 then
    (ERR_INVALID_ARGS, s)
  else
    (NO_ERROR, { s with cr3 := guest_cr3 })

/-- `VmcsContext::set_entry(guest_entry)`. -/
def set_entry (s : VmcsContextState) (guest_entry : Nat) : status_t × VmcsContextState :=
  if guest_entry ≥ s.gpas_size then
    (ERR_INVALID_ARGS, s)
  else
    (NO_ERROR, { s with entry := guest_entry })

/-- Observable outcome of one `VmcsPerCpu::Enter` call: the returned
status, the new `do_resume_` flag, and whether `GUEST_CR3`/`GUEST_RIP`
were programmed from the context (the first-launch path). -/
structure EnterOutcome where
  status : status_t
  do_resume : Bool
  programmed_entry : Bool
  deriving DecidableEq, Repr

/-- `VmcsPerCpu::Enter` as a transition on the `do_resume_` flag.
`enter_status` is what the `vmx_enter` trampoline returns (the
VMLAUNCH/VMRESUME outcome); `handler_status` is what `vmexit_handler`
returns when the entry succeeded.  The handler never touches
`do_resume_`. -/
def PerCpuEnter (do_resume : Bool) (enter_status handler_status : status_t) : EnterOutcome :=
  let programmed := !do_resume
  if enter_status = NO_ERROR then
    ⟨handler_status, true, programmed⟩
  else
    ⟨enter_status, do_resume, programmed⟩

/-- `do_resume_` after a sequence of `Enter` calls, each given by its
pair `(vmx_enter status, handler status)`. -/
def run_enters (d : Bool) : List (status_t × status_t) → Bool
  | [] => d
  | p :: rest => run_enters (PerCpuEnter d p.1 p.2).do_resume rest

/-- Events relevant to the scoped-VMCS-load interrupt discipline. -/
inductive VmxEvent where
  | disableInts
  | enableInts
  | vmptrld
  | vmxWrite
  | vmEnter
  deriving DecidableEq, Repr

/-- Interrupt-enable flag after one event. -/
def intsStep (flag : Bool) : VmxEvent → Bool
  | .disableInts => false
  | .enableInts => true
  | _ => flag

/-- Interrupt-enable flag after a sequence of events. -/
def intsAfter (flag : Bool) : List VmxEvent → Bool
  | [] => flag
  | e :: rest => intsAfter (intsStep flag e) rest

/-- `true` iff every `vmptrld` in the sequence executes while the
interrupt-enable flag is `false`. -/
def vmptrldOk (flag : Bool) : List VmxEvent → Bool
  | [] => true
  | e :: rest => (e != .vmptrld || !flag) && vmptrldOk (intsStep flag e) rest

/-- `AutoVmcsLoad` scope around a body: the constructor (which asserts
interrupts are enabled) disables interrupts and executes VMPTRLD; the
destructor (which asserts they are still disabled) re-enables them on
every exit path. -/
def auto_vmcs_load_scope (body : List VmxEvent) : List VmxEvent :=
  .disableInts :: .vmptrld :: (body ++ [.enableInts])

/-- Event trace of `VmcsPerCpu::Setup`: an `AutoVmcsLoad` scope whose
body is VMCS writes only.  `n` is the number of writes executed before
returning (early error returns give a shorter body; the destructor
still runs). -/
def setup_trace (n : Nat) : List VmxEvent :=
  auto_vmcs_load_scope (List.replicate n .vmxWrite)

/-- Interrupt-relevant events of `vmexit_handler` by exit reason: the
external-interrupt handler briefly re-enables then disables
interrupts; the other handlers only write VMCS fields. -/
def handler_events : ExitReason → List VmxEvent
  | .EXTERNAL_INTERRUPT => [.enableInts, .disableInts]
  | .CPUID => [.vmxWrite]
  | .IO_INSTRUCTION => [.vmxWrite]
  | .WRMSR => []
  | .other _ => []

/-- Event trace of `VmcsPerCpu::Enter`: an `AutoVmcsLoad` scope around
host-state refresh writes, the guest CR3/RIP programming on first
launch, the VMLAUNCH/VMRESUME transition, and (when the entry
succeeded) the exit handler for reason `r`. -/
def enter_trace (do_resume : Bool) (enter_ok : Bool) (r : ExitReason) : List VmxEvent :=
  auto_vmcs_load_scope
    ([.vmxWrite, .vmxWrite] ++
     (if do_resume then [] else [.vmxWrite, .vmxWrite]) ++
     [.vmEnter] ++
     (if enter_ok then handler_events r else []))

/-! ### Bit-level helper lemmas -/

theorem testBit_imp_of_land_eq {a b : Nat} (h : a &&& b = b) :
    ∀ i, b.testBit i = true → a.testBit i = true := by
  intro i hb
  have ht := congrArg (Nat.testBit · i) h
  simp only [Nat.testBit_and] at ht
  rw [hb] at ht
  simpa using ht

theorem testBit_disjoint_of_land_eq_zero {a b : Nat} (h : a &&& b = 0) :
    ∀ i, a.testBit i = true → b.testBit i = false := by
  intro i ha
  have ht := congrArg (Nat.testBit · i) h
  simp only [Nat.testBit_and, Nat.zero_testBit] at ht
  rw [ha] at ht
  simpa using ht

theorem land_eq_zero_of_testBit {a b : Nat}
    (h : ∀ i, a.testBit i = true → b.testBit i = false) : a &&& b = 0 := by
  apply Nat.eq_of_testBit_eq
  intro i
  simp only [Nat.testBit_and, Nat.zero_testBit]
  cases ha : a.testBit i
  · simp
  · simp [h i ha]

theorem land_absorb_of_testBit {a v : Nat}
    (h : ∀ i, a.testBit i = true → v.testBit i = true) : a &&& v = a := by
  apply Nat.eq_of_testBit_eq
  intro i
  simp only [Nat.testBit_and]
  cases ha : a.testBit i
  · simp
  · simp [h i ha]

theorem testBit_compl32 (x i : Nat) :
    (compl32 x).testBit i = ((decide (i < 32)).xor (x.testBit i)) := by
  simp only [compl32, Nat.testBit_xor, Nat.testBit_two_pow_sub_one]

theorem BITS_31_0 (x : Nat) : BITS x 31 0 = x % 2 ^ 32 := by
  show x &&& (2 ^ 32 - 2 ^ 0) = x % 2 ^ 32
  rw [show (2 : Nat) ^ 32 - 2 ^ 0 = 2 ^ 32 - 1 from rfl]
  exact Nat.and_pow_two_sub_one_eq_mod x 32

theorem BITS_SHIFT_63_32 (x : Nat) : BITS_SHIFT x 63 32 = (x >>> 32) % 2 ^ 32 := by
  show (x >>> 32) &&& (2 ^ 32 - 1) = (x >>> 32) % 2 ^ 32
  exact Nat.and_pow_two_sub_one_eq_mod _ 32

theorem BITS_31_0_lt (x : Nat) : BITS x 31 0 < 2 ^ 32 := by
  rw [BITS_31_0]; exact Nat.mod_lt _ (by norm_num)

theorem BITS_SHIFT_63_32_lt (x : Nat) : BITS_SHIFT x 63 32 < 2 ^ 32 := by
  rw [BITS_SHIFT_63_32]; exact Nat.mod_lt _ (by norm_num)

theorem testBit_false_of_ge {x i : Nat} (hx : x < 2 ^ 32) (hi : 32 ≤ i) :
    x.testBit i = false :=
  Nat.testBit_eq_false_of_lt (lt_of_lt_of_le hx (Nat.pow_le_pow_right (by norm_num) hi))

/-! ### Claim theorems -/

/-- Claim C5 (counterexample): at exit qualification `q = 4` the
decoder yields `bytes = 5`, outside the claimed range `1..4`. -/
theorem ioinfo_bytes_out_of_range : (IoInfo.decode 4).bytes = 5 ∧ ¬(IoInfo.decode 4).bytes ≤ 4 := by
  decide

/-- Claim C5 (amended): for every 64-bit exit qualification `q`, the
decoder produces `bytes = (q bits [2:0]) + 1`, which lies in `1..8`
(not `1..4`: the three size bits admit values up to 7), `input` = bit 3,
`string` = bit 4, `repeat` = bit 5, and `port` = bits `[31:16]` of `q`. -/
theorem ioinfo_decode_spec (q : Nat) :
    (IoInfo.decode q).bytes = q % 8 + 1 ∧
    1 ≤ (IoInfo.decode q).bytes ∧ (IoInfo.decode q).bytes ≤ 8 ∧
    (IoInfo.decode q).input = q.testBit 3 ∧
    (IoInfo.decode q).string = q.testBit 4 ∧
    (IoInfo.decode q).rep = q.testBit 5 ∧
    (IoInfo.decode q).port = q / 2 ^ 16 % 2 ^ 16 := by
  have hbytes : (IoInfo.decode q).bytes = q % 8 + 1 := by
    show (q &&& (2 ^ 3 - 2 ^ 0)) + 1 = q % 8 + 1
    rw [show (2 : Nat) ^ 3 - 2 ^ 0 = 2 ^ 3 - 1 from rfl]
    rw [Nat.and_pow_two_sub_one_eq_mod]
  have hbit : ∀ k, BIT_SHIFT q k = q.testBit k := by
    intro k
    show (((q >>> k) &&& 1) == 1) = q.testBit k
    rw [Nat.and_one_is_mod, Nat.testBit_to_div_mod, Nat.shiftRight_eq_div_pow]
    cases h : q / 2 ^ k % 2 = 1 |> decide <;> simp_all
  refine ⟨hbytes, by omega, by omega, hbit 3, hbit 4, hbit 5, ?_⟩
  show (q >>> 16) &&& (2 ^ 16 - 1) = q / 2 ^ 16 % 2 ^ 16
  rw [Nat.and_pow_two_sub_one_eq_mod, Nat.shiftRight_eq_div_pow]

/-- Claim C6 (counterexample): with `true_msr = 0` (nothing may be set),
`set = clear = 1`, the masks overlap yet the helper returns
`ERR_NOT_SUPPORTED`, not `ERR_INVALID_ARGS`: the capability checks run
before the overlap check. -/
theorem set_vmcs_control_overlap_not_invalid_args :
    (1 : Nat) &&& 1 ≠ 0 ∧
    set_vmcs_control 0 0 1 1 = (status_t.ERR_NOT_SUPPORTED, none) ∧
    (set_vmcs_control 0 0 1 1).1 ≠ status_t.ERR_INVALID_ARGS := by
  decide

/-- Claim C6 (amended): when the two capability checks pass (every
requested set bit is allowed-one and every requested clear bit is
outside allowed-zero) and the set and clear masks overlap, the helper
returns `ERR_INVALID_ARGS` and does not write the control field. -/
theorem set_vmcs_control_overlap (true_msr old_msr set clear : Nat)
    (h1 : BITS_SHIFT true_msr 63 32 &&& set = set)
    (h2 : compl32 (BITS true_msr 31 0) &&& clear = clear)
    (h3 : set &&& clear ≠ 0) :
    set_vmcs_control true_msr old_msr set clear = (status_t.ERR_INVALID_ARGS, none) := by
  simp only [set_vmcs_control]
  rw [if_neg (by simp [h1]), if_neg (by simp [h2]), if_pos h3]

/-- Witness for C6: a concrete overlapping call that the amended
theorem resolves to `ERR_INVALID_ARGS` with no write. -/
theorem set_vmcs_control_overlap_witness :
    set_vmcs_control (3 * 2 ^ 32) 0 1 1 = (status_t.ERR_INVALID_ARGS, none) :=
  set_vmcs_control_overlap (3 * 2 ^ 32) 0 1 1 (by decide) (by decide) (by decide)

/-- Claim C7: `set_cr3` rejects `cr3 ≥ guest_memory_size − PAGE_SIZE`
with `ERR_INVALID_ARGS` (leaving the context unchanged) and otherwise
stores the value and returns `NO_ERROR`; `set_entry` rejects
`rip ≥ guest_memory_size` and otherwise stores the value; in particular
`set_entry (guest_memory_size − 1)` returns `NO_ERROR`.  The guest
memory size is assumed to be at least one page (the `size_t`
subtraction `size − PAGE_SIZE` would otherwise wrap) and below
`2 ^ 64`. -/
theorem set_cr3_set_entry_spec (s : VmcsContextState) (v w : Nat)
    (hsz : PAGE_SIZE ≤ s.gpas_size) (hsz64 : s.gpas_size < 2 ^ 64) :
    (s.gpas_size - PAGE_SIZE ≤ v → set_cr3 s v = (status_t.ERR_INVALID_ARGS, s)) ∧
    (v < s.gpas_size - PAGE_SIZE → set_cr3 s v = (status_t.NO_ERROR, { s with cr3 := v })) ∧
    (s.gpas_size ≤ w → set_entry s w = (status_t.ERR_INVALID_ARGS, s)) ∧
    (w < s.gpas_size → set_entry s w = (status_t.NO_ERROR, { s with entry := w })) ∧
    (set_entry s (s.gpas_size - 1)).1 = status_t.NO_ERROR := by
  have hmod : (s.gpas_size + 2 ^ 64 - PAGE_SIZE) % 2 ^ 64 = s.gpas_size - PAGE_SIZE := by
    unfold PAGE_SIZE at *
    omega
  refine ⟨fun h => ?_, fun h => ?_, fun h => ?_, fun h => ?_, ?_⟩
  · simp only [set_cr3, hmod]
    rw [if_pos h]
  · simp only [set_cr3, hmod]
    rw [if_neg (by omega)]
  · simp only [set_entry]
    rw [if_pos h]
  · simp only [set_entry]
    rw [if_neg (by omega)]
  · simp only [set_entry]
    rw [if_neg (by unfold PAGE_SIZE at hsz; omega)]

/-- Witness for C7 at `guest_memory_size = 8192`: the boundary inputs
behave as the theorem states. -/
theorem set_cr3_set_entry_spec_witness :
    set_cr3 ⟨0, 0, 8192⟩ 4096 = (status_t.ERR_INVALID_ARGS, ⟨0, 0, 8192⟩) ∧
    set_entry ⟨0, 0, 8192⟩ 8191 = (status_t.NO_ERROR, ⟨0, 8191, 8192⟩) ∧
    (set_entry ⟨0, 0, 8192⟩ (8192 - 1)).1 = status_t.NO_ERROR := by
  have h := set_cr3_set_entry_spec ⟨0, 0, 8192⟩ 4096 8191 (by decide) (by decide)
  exact ⟨h.1 (by decide), h.2.2.2.1 (by decide), h.2.2.2.2⟩

/-- `do_resume_` after a run of `Enter` calls equals the initial flag
or-ed with "some VMLAUNCH/VMRESUME in the run succeeded". -/
theorem run_enters_eq (l : List (status_t × status_t)) (d : Bool) :
    run_enters d l = (d || l.any fun p => p.1 == status_t.NO_ERROR) := by
  induction l generalizing d with
  | nil => simp [run_enters]
  | cons p rest ih =>
    by_cases h : p.1 = status_t.NO_ERROR
    · simp [run_enters, PerCpuEnter, h, ih]
    · simp only [run_enters, PerCpuEnter, if_neg h, ih, List.any_cons]
      rw [beq_eq_false_iff_ne.mpr h]
      simp

/-- Claim C8: starting from `do_resume = false`, after any sequence of
`Enter` calls the flag holds exactly when some VM entry in the sequence
succeeded (so it is false before the first successful entry and true
thereafter); an `Enter` that returns success leaves `do_resume = true`
(equivalently, after any `Enter` either `do_resume` holds or the status
is a failure); and `Enter` programs guest CR3/RIP from the context
exactly when `do_resume` was false. -/
theorem do_resume_invariant :
    (∀ l : List (status_t × status_t),
      run_enters false l = l.any fun p => p.1 == status_t.NO_ERROR) ∧
    (∀ d e h, (PerCpuEnter d e h).status = status_t.NO_ERROR →
      (PerCpuEnter d e h).do_resume = true) ∧
    (∀ d e h, (PerCpuEnter d e h).do_resume = true ∨
      (PerCpuEnter d e h).status ≠ status_t.NO_ERROR) ∧
    (∀ d e h, (PerCpuEnter d e h).programmed_entry = !d) := by
  refine ⟨fun l => by simpa using run_enters_eq l false, fun d e h hs => ?_, fun d e h => ?_, fun d e h => ?_⟩
  · by_cases he : e = status_t.NO_ERROR
    · simp [PerCpuEnter, he]
    · simp_all [PerCpuEnter]
  · by_cases he : e = status_t.NO_ERROR <;> simp_all [PerCpuEnter]
  · by_cases he : e = status_t.NO_ERROR <;> simp [PerCpuEnter, he]

/-- Witness for C8: a concrete failed first entry followed by a
successful one flips `do_resume`, and a successful `Enter` reports
`do_resume = true`. -/
theorem do_resume_invariant_witness :
    run_enters false
      [(status_t.ERR_INTERNAL, status_t.NO_ERROR),
       (status_t.NO_ERROR, status_t.ERR_NOT_SUPPORTED)] = true ∧
    (PerCpuEnter false status_t.NO_ERROR status_t.NO_ERROR).do_resume = true := by
  refine ⟨?_, do_resume_invariant.2.1 false status_t.NO_ERROR status_t.NO_ERROR (by decide)⟩
  rw [do_resume_invariant.1]
  decide

/-- A `vmptrld`-free event sequence trivially satisfies the
"`vmptrld` only with interrupts disabled" check. -/
theorem vmptrldOk_of_not_mem (l : List VmxEvent) (h : VmxEvent.vmptrld ∉ l) :
    ∀ f, vmptrldOk f l = true := by
  induction l with
  | nil => intro f; rfl
  | cons e rest ih =>
    intro f
    have he : e ≠ VmxEvent.vmptrld := fun hc => h (hc ▸ List.mem_cons_self e rest)
    have hrest : VmxEvent.vmptrld ∉ rest := fun hc => h (List.mem_cons_of_mem e hc)
    simp [vmptrldOk, ih hrest, he]

theorem intsAfter_append (l1 l2 : List VmxEvent) :
    ∀ f, intsAfter f (l1 ++ l2) = intsAfter (intsAfter f l1) l2 := by
  induction l1 with
  | nil => intro f; rfl
  | cons e rest ih => intro f; simp [intsAfter, ih]

/-- Inside an `AutoVmcsLoad` scope whose body never executes a
`vmptrld` of its own, the scope's `vmptrld` runs with interrupts
disabled and the scope ends with interrupts re-enabled (the state that
held on entry, which the constructor requires to be enabled). -/
theorem auto_vmcs_load_scope_ok (body : List VmxEvent) (h : VmxEvent.vmptrld ∉ body) :
    vmptrldOk true (auto_vmcs_load_scope body) = true ∧
    intsAfter true (auto_vmcs_load_scope body) = true := by
  constructor
  · simp only [auto_vmcs_load_scope, vmptrldOk, intsStep]
    have hnm : VmxEvent.vmptrld ∉ body ++ [VmxEvent.enableInts] := by
      intro hc
      rcases List.mem_append.1 hc with hc | hc
      · exact h hc
      · simp at hc
    simp [vmptrldOk_of_not_mem _ hnm]
  · simp only [auto_vmcs_load_scope, intsAfter, intsStep]
    rw [intsAfter_append]
    rfl

/-- Claim C9: for both scoped-VMCS-load scopes in the code — VMCS
construction (`Setup`, any number `n` of field writes before the scope
ends) and guest entry (`Enter`, for any prior `do_resume` flag, any
VMLAUNCH/VMRESUME outcome and any exit reason) — starting from
interrupts enabled (required by the scope's constructor), every
`VMPTRLD` executes with interrupts disabled and the scope ends with
interrupts re-enabled, i.e. restored to the state that held before
entry. -/
theorem vmcs_load_interrupt_discipline (n : Nat) (d ok : Bool) (r : ExitReason) :
    vmptrldOk true (setup_trace n) = true ∧
    intsAfter true (setup_trace n) = true ∧
    vmptrldOk true (enter_trace d ok r) = true ∧
    intsAfter true (enter_trace d ok r) = true := by
  have hsetup := auto_vmcs_load_scope_ok (List.replicate n VmxEvent.vmxWrite)
    (by simp [List.mem_replicate])
  have henter := auto_vmcs_load_scope_ok
    ([VmxEvent.vmxWrite, VmxEvent.vmxWrite] ++
     (if d then [] else [VmxEvent.vmxWrite, VmxEvent.vmxWrite]) ++
     [VmxEvent.vmEnter] ++
     (if ok then handler_events r else []))
    (by
      intro hc
      simp only [List.mem_append] at hc
      rcases hc with ((hc | hc) | hc) | hc
      · simp at hc
      · split at hc <;> simp_all
      · simp at hc
      · split at hc
        · cases r <;> simp [handler_events] at hc
        · simp at hc)
  exact ⟨hsetup.1, hsetup.2, henter.1, henter.2⟩

theorem write_low32_hi (r v : Nat) : write_low32 r v >>> 32 = r >>> 32 := by
  simp only [write_low32, Nat.shiftRight_eq_div_pow]
  have h32 : (2 : Nat) ^ 32 = 4294967296 := by norm_num
  rw [h32]
  omega

theorem write_low32_lo (r v : Nat) : write_low32 r v % 2 ^ 32 = v % 2 ^ 32 := by
  simp only [write_low32]
  omega

/-- Claim C2 (counterexample): a CPUID exit with guest `rax = 1` leaves
`GUEST_RIP` unwritten (so it is not advanced past the instruction) even
though it does return `ERR_NOT_SUPPORTED`; the claim's unconditional
"advances guest RIP" fails. -/
theorem cpuid_unknown_leaf_no_rip_advance :
    (vmexit_handler (fun _ => ⟨0, 0, 0, 0⟩) (fun _ => status_t.NO_ERROR)
        ⟨ExitReason.CPUID, 0, 2, 100⟩ ⟨1, 0, 0, 0⟩).guest_rip_write = none ∧
    (vmexit_handler (fun _ => ⟨0, 0, 0, 0⟩) (fun _ => status_t.NO_ERROR)
        ⟨ExitReason.CPUID, 0, 2, 100⟩ ⟨1, 0, 0, 0⟩).guest_rip_write ≠ some ((100 + 2) % 2 ^ 64) ∧
    (vmexit_handler (fun _ => ⟨0, 0, 0, 0⟩) (fun _ => status_t.NO_ERROR)
        ⟨ExitReason.CPUID, 0, 2, 100⟩ ⟨1, 0, 0, 0⟩).status = status_t.ERR_NOT_SUPPORTED := by
  refine ⟨rfl, ?_, rfl⟩
  intro h
  simp [vmexit_handler, handle_cpuid, X86_CPUID_BASE] at h

/-- Claim C2 (amended): on a VM exit with reason CPUID, if the guest's
`rax` is 0 the handler advances `GUEST_RIP` to
`guest_rip + instruction_length`, writes the four host CPUID leaf-0
outputs into the low halves of the saved guest registers, sets guest
`rax` to 0 and returns success; for any other `rax` it returns
`ERR_NOT_SUPPORTED` leaving the guest state untouched and `GUEST_RIP`
unwritten (the claim's unconditional RIP advance holds only on the
`rax = 0` path). -/
theorem handle_cpuid_dispatch_spec (host : Nat → CpuidLeaf) (fw : List Nat → status_t)
    (e : ExitInfo) (gs : GuestState) (hr : e.exit_reason = ExitReason.CPUID) :
    (gs.rax = 0 →
      vmexit_handler host fw e gs =
        ⟨status_t.NO_ERROR,
         { rax := 0
           rbx := write_low32 gs.rbx (host 0).ebx
           rcx := write_low32 gs.rcx (host 0).ecx
           rdx := write_low32 gs.rdx (host 0).edx },
         some ((e.guest_rip + e.instruction_length) % 2 ^ 64), []⟩) ∧
    (gs.rax ≠ 0 →
      vmexit_handler host fw e gs = ⟨status_t.ERR_NOT_SUPPORTED, gs, none, []⟩) := by
  obtain ⟨re, q, il, rip⟩ := e
  simp only at hr
  subst hr
  constructor
  · intro h0
    simp [vmexit_handler, handle_cpuid, X86_CPUID_BASE, h0, next_rip]
  · intro h0
    simp [vmexit_handler, handle_cpuid, X86_CPUID_BASE, h0]

/-- Witness for C2 (amended): the concrete leaf-0 exit from the
counterexample's setting, now with `rax = 0`. -/
theorem handle_cpuid_dispatch_spec_witness :
    vmexit_handler (fun _ => ⟨7, 8, 9, 10⟩) (fun _ => status_t.NO_ERROR)
        ⟨ExitReason.CPUID, 0, 2, 100⟩ ⟨0, 5 * 2 ^ 32 + 1, 2, 3⟩ =
      ⟨status_t.NO_ERROR, ⟨0, 5 * 2 ^ 32 + 8, 9, 10⟩, some 102, []⟩ := by
  have h := (handle_cpuid_dispatch_spec (fun _ => ⟨7, 8, 9, 10⟩) (fun _ => status_t.NO_ERROR)
    ⟨ExitReason.CPUID, 0, 2, 100⟩ ⟨0, 5 * 2 ^ 32 + 1, 2, 3⟩ rfl).1 rfl
  rw [h]
  decide

/-- Claim C3: on a VM exit with reason IO_INSTRUCTION the handler
always writes `GUEST_RIP ← guest_rip + instruction_length` and leaves
the guest registers alone; if the decoded access is an input, a string
access, a repeated access, or is not to port 0x3F8, it returns success
and writes nothing to the serial FIFO; otherwise it writes the low
`bytes` bytes of guest `rax` to the FIFO and returns the FIFO's own
status. -/
theorem io_instruction_spec (host : Nat → CpuidLeaf) (fw : List Nat → status_t)
    (e : ExitInfo) (gs : GuestState) (hr : e.exit_reason = ExitReason.IO_INSTRUCTION) :
    (vmexit_handler host fw e gs).guest_rip_write =
      some ((e.guest_rip + e.instruction_length) % 2 ^ 64) ∧
    (vmexit_handler host fw e gs).guest = gs ∧
    (((IoInfo.decode e.exit_qualification).input = true ∨
      (IoInfo.decode e.exit_qualification).string = true ∨
      (IoInfo.decode e.exit_qualification).rep = true ∨
      (IoInfo.decode e.exit_qualification).port ≠ 0x3f8) →
      (vmexit_handler host fw e gs).status = status_t.NO_ERROR ∧
      (vmexit_handler host fw e gs).fifo_written = []) ∧
    (((IoInfo.decode e.exit_qualification).input = false ∧
      (IoInfo.decode e.exit_qualification).string = false ∧
      (IoInfo.decode e.exit_qualification).rep = false ∧
      (IoInfo.decode e.exit_qualification).port = 0x3f8) →
      (vmexit_handler host fw e gs).fifo_written =
        rax_bytes gs.rax (IoInfo.decode e.exit_qualification).bytes ∧
      (vmexit_handler host fw e gs).status =
        fw (rax_bytes gs.rax (IoInfo.decode e.exit_qualification).bytes)) := by
  obtain ⟨re, q, il, rip⟩ := e
  simp only at hr
  subst hr
  by_cases hio : (IoInfo.decode q).input || (IoInfo.decode q).string ||
      (IoInfo.decode q).rep || (IoInfo.decode q).port != kUartIoPort
  · refine ⟨?_, ?_, ?_, ?_⟩
    · simp [vmexit_handler, hio, next_rip]
    · simp [vmexit_handler, hio]
    · intro _
      constructor <;> simp [vmexit_handler, hio]
    · intro hcond
      exfalso
      simp only [Bool.or_eq_true, bne_iff_ne, kUartIoPort] at hio
      rcases hcond with ⟨h1, h2, h3, h4⟩
      rcases hio with ((hi | hi) | hi) | hi <;> simp_all
  · have hio' := hio
    simp only [Bool.or_eq_true, bne_iff_ne, kUartIoPort, not_or, Bool.not_eq_true,
      Decidable.not_not] at hio'
    refine ⟨?_, ?_, ?_, ?_⟩
    · simp [vmexit_handler, hio, next_rip]
    · simp [vmexit_handler, hio]
    · intro hcond
      exfalso
      rcases hio' with ⟨⟨⟨hi1, hi2⟩, hi3⟩, hi4⟩
      rcases hcond with h | h | h | h <;> simp_all
    · intro _
      constructor <;> simp [vmexit_handler, hio]

/-- Witness for C3: a one-byte `OUT 0x3F8, AL` with `AL = 0x41` pushes
`[0x41]` into the FIFO and surfaces the FIFO's status, and a port-0x60
input write-free exit returns success with no FIFO traffic. -/
theorem io_instruction_spec_witness :
    (vmexit_handler (fun _ => ⟨0, 0, 0, 0⟩) (fun _ => status_t.ERR_BAD_STATE)
        ⟨ExitReason.IO_INSTRUCTION, 0x3F80000, 1, 50⟩ ⟨0x4241, 0, 0, 0⟩).fifo_written = [0x41] ∧
    (vmexit_handler (fun _ => ⟨0, 0, 0, 0⟩) (fun _ => status_t.ERR_BAD_STATE)
        ⟨ExitReason.IO_INSTRUCTION, 0x3F80000, 1, 50⟩ ⟨0x4241, 0, 0, 0⟩).status =
      status_t.ERR_BAD_STATE ∧
    (vmexit_handler (fun _ => ⟨0, 0, 0, 0⟩) (fun _ => status_t.ERR_BAD_STATE)
        ⟨ExitReason.IO_INSTRUCTION, 0x600008, 1, 50⟩ ⟨0x4241, 0, 0, 0⟩).status =
      status_t.NO_ERROR ∧
    (vmexit_handler (fun _ => ⟨0, 0, 0, 0⟩) (fun _ => status_t.ERR_BAD_STATE)
        ⟨ExitReason.IO_INSTRUCTION, 0x600008, 1, 50⟩ ⟨0x4241, 0, 0, 0⟩).fifo_written = [] := by
  have h1 := (io_instruction_spec (fun _ => ⟨0, 0, 0, 0⟩) (fun _ => status_t.ERR_BAD_STATE)
    ⟨ExitReason.IO_INSTRUCTION, 0x3F80000, 1, 50⟩ ⟨0x4241, 0, 0, 0⟩ rfl).2.2.2
    (by refine ⟨?_, ?_, ?_, ?_⟩ <;> decide)
  have h2 := (io_instruction_spec (fun _ => ⟨0, 0, 0, 0⟩) (fun _ => status_t.ERR_BAD_STATE)
    ⟨ExitReason.IO_INSTRUCTION, 0x600008, 1, 50⟩ ⟨0x4241, 0, 0, 0⟩ rfl).2.2.1
    (by left; decide)
  exact ⟨h1.1.trans (by decide), h1.2.trans (by decide), h2.1, h2.2⟩

/-- Claim C10: on a CPUID leaf-0 exit, only the low 32 bits of the
saved guest `rbx`, `rcx`, `rdx` are overwritten with the host CPUID
leaf-0 outputs — their upper 32 bits keep the pre-exit guest values —
while guest `rax` is assigned 0 across all 64 bits. -/
theorem cpuid_frame_effect (host : Nat → CpuidLeaf) (fw : List Nat → status_t)
    (e : ExitInfo) (gs : GuestState) (hr : e.exit_reason = ExitReason.CPUID)
    (h0 : gs.rax = 0) (hb : (host 0).ebx < 2 ^ 32) (hc : (host 0).ecx < 2 ^ 32)
    (hd : (host 0).edx < 2 ^ 32) :
    (vmexit_handler host fw e gs).guest.rbx >>> 32 = gs.rbx >>> 32 ∧
    (vmexit_handler host fw e gs).guest.rbx % 2 ^ 32 = (host 0).ebx ∧
    (vmexit_handler host fw e gs).guest.rcx >>> 32 = gs.rcx >>> 32 ∧
    (vmexit_handler host fw e gs).guest.rcx % 2 ^ 32 = (host 0).ecx ∧
    (vmexit_handler host fw e gs).guest.rdx >>> 32 = gs.rdx >>> 32 ∧
    (vmexit_handler host fw e gs).guest.rdx % 2 ^ 32 = (host 0).edx ∧
    (vmexit_handler host fw e gs).guest.rax = 0 := by
  have h := (handle_cpuid_dispatch_spec host fw e gs hr).1 h0
  rw [h]
  refine ⟨write_low32_hi _ _, ?_, write_low32_hi _ _, ?_, write_low32_hi _ _, ?_, rfl⟩
  · rw [write_low32_lo, Nat.mod_eq_of_lt hb]
  · rw [write_low32_lo, Nat.mod_eq_of_lt hc]
  · rw [write_low32_lo, Nat.mod_eq_of_lt hd]

/-- Witness for C10: concrete registers with distinctive upper halves
keep them; the low halves take the host's leaf-0 values; `rax`
becomes 0. -/
theorem cpuid_frame_effect_witness :
    (vmexit_handler (fun _ => ⟨7, 8, 9, 10⟩) (fun _ => status_t.NO_ERROR)
        ⟨ExitReason.CPUID, 0, 2, 100⟩
        ⟨0, 5 * 2 ^ 32 + 1, 6 * 2 ^ 32 + 2, 7 * 2 ^ 32 + 3⟩).guest.rbx >>> 32 =
      (5 * 2 ^ 32 + 1 : Nat) >>> 32 ∧
    (vmexit_handler (fun _ => ⟨7, 8, 9, 10⟩) (fun _ => status_t.NO_ERROR)
        ⟨ExitReason.CPUID, 0, 2, 100⟩
        ⟨0, 5 * 2 ^ 32 + 1, 6 * 2 ^ 32 + 2, 7 * 2 ^ 32 + 3⟩).guest.rbx % 2 ^ 32 = 8 ∧
    (vmexit_handler (fun _ => ⟨7, 8, 9, 10⟩) (fun _ => status_t.NO_ERROR)
        ⟨ExitReason.CPUID, 0, 2, 100⟩
        ⟨0, 5 * 2 ^ 32 + 1, 6 * 2 ^ 32 + 2, 7 * 2 ^ 32 + 3⟩).guest.rcx >>> 32 =
      (6 * 2 ^ 32 + 2 : Nat) >>> 32 ∧
    (vmexit_handler (fun _ => ⟨7, 8, 9, 10⟩) (fun _ => status_t.NO_ERROR)
        ⟨ExitReason.CPUID, 0, 2, 100⟩
        ⟨0, 5 * 2 ^ 32 + 1, 6 * 2 ^ 32 + 2, 7 * 2 ^ 32 + 3⟩).guest.rcx % 2 ^ 32 = 9 ∧
    (vmexit_handler (fun _ => ⟨7, 8, 9, 10⟩) (fun _ => status_t.NO_ERROR)
        ⟨ExitReason.CPUID, 0, 2, 100⟩
        ⟨0, 5 * 2 ^ 32 + 1, 6 * 2 ^ 32 + 2, 7 * 2 ^ 32 + 3⟩).guest.rdx >>> 32 =
      (7 * 2 ^ 32 + 3 : Nat) >>> 32 ∧
    (vmexit_handler (fun _ => ⟨7, 8, 9, 10⟩) (fun _ => status_t.NO_ERROR)
        ⟨ExitReason.CPUID, 0, 2, 100⟩
        ⟨0, 5 * 2 ^ 32 + 1, 6 * 2 ^ 32 + 2, 7 * 2 ^ 32 + 3⟩).guest.rdx % 2 ^ 32 = 10 ∧
    (vmexit_handler (fun _ => ⟨7, 8, 9, 10⟩) (fun _ => status_t.NO_ERROR)
        ⟨ExitReason.CPUID, 0, 2, 100⟩
        ⟨0, 5 * 2 ^ 32 + 1, 6 * 2 ^ 32 + 2, 7 * 2 ^ 32 + 3⟩).guest.rax = 0 :=
  cpuid_frame_effect (fun _ => ⟨7, 8, 9, 10⟩) (fun _ => status_t.NO_ERROR)
    ⟨ExitReason.CPUID, 0, 2, 100⟩ ⟨0, 5 * 2 ^ 32 + 1, 6 * 2 ^ 32 + 2, 7 * 2 ^ 32 + 3⟩
    rfl rfl (by decide) (by decide) (by decide)

/-- The tail of `vmx_enable` (CR checks, `x86_set_cr4`, VMXON) never
returns `ERR_NOT_SUPPORTED` and leaves the feature-control write
record as given. -/
theorem vmx_enable_rest_spec (m : Machine) (o : Option Nat) :
    (vmx_enable_rest m o).status ≠ status_t.ERR_NOT_SUPPORTED ∧
    (vmx_enable_rest m o).fc_write = o := by
  by_cases h0 : cr_is_invalid m.cr0 m.cr0_fixed0 m.cr0_fixed1 = true
  · simp [vmx_enable_rest, h0]
  · by_cases h4 : cr_is_invalid (m.cr4 ||| X86_CR4_VMXE) m.cr4_fixed0 m.cr4_fixed1 = true
    · simp [vmx_enable_rest, h0, h4]
    · by_cases hv : m.vmxon_ok = true <;> simp [vmx_enable_rest, h0, h4, hv]

/-- Claim C4: during per-CPU VMX enablement the feature-control MSR is
handled in exactly three cases.  When the capability checks pass:
(a) unlocked → the MSR is rewritten with both LOCK and VMXON set and
bring-up proceeds (the result is never `ERR_NOT_SUPPORTED`);
(c) locked with VMXON set → accepted without being written.
(b) locked with VMXON clear → `ERR_NOT_SUPPORTED` with CR4 untouched
and the MSR unwritten, unconditionally (a failed capability check
yields the same observable outcome). -/
theorem vmx_enable_feature_control (m : Machine) :
    (vmx_enable_caps_ok m = true →
      (m.feature_control &&& X86_MSR_IA32_FEATURE_CONTROL_LOCK = 0 →
        (vmx_enable m).fc_write =
          some (m.feature_control ||| X86_MSR_IA32_FEATURE_CONTROL_LOCK |||
                X86_MSR_IA32_FEATURE_CONTROL_VMXON) ∧
        (vmx_enable m).status ≠ status_t.ERR_NOT_SUPPORTED) ∧
      (m.feature_control &&& X86_MSR_IA32_FEATURE_CONTROL_LOCK ≠ 0 ∧
          m.feature_control &&& X86_MSR_IA32_FEATURE_CONTROL_VMXON ≠ 0 →
        (vmx_enable m).fc_write = none ∧
        (vmx_enable m).status ≠ status_t.ERR_NOT_SUPPORTED)) ∧
    (m.feature_control &&& X86_MSR_IA32_FEATURE_CONTROL_LOCK ≠ 0 ∧
        m.feature_control &&& X86_MSR_IA32_FEATURE_CONTROL_VMXON = 0 →
      (vmx_enable m).status = status_t.ERR_NOT_SUPPORTED ∧
      (vmx_enable m).cr4_write = none ∧
      (vmx_enable m).fc_write = none) := by
  constructor
  · intro hcaps
    simp only [vmx_enable_caps_ok, Bool.and_eq_true] at hcaps
    obtain ⟨⟨⟨⟨⟨⟨h1, h2⟩, h3⟩, h4⟩, h5⟩, h6⟩, h7⟩ := hcaps
    constructor
    · intro hl
      have hrest := vmx_enable_rest_spec m
        (some (m.feature_control ||| X86_MSR_IA32_FEATURE_CONTROL_LOCK |||
               X86_MSR_IA32_FEATURE_CONTROL_VMXON))
      simp only [vmx_enable, h1, h2, h3, h4, h5, h6, h7, Bool.not_true, Bool.false_eq_true,
        if_false]
      rw [if_pos (Or.inl hl), if_neg (fun hc => hc.1 hl)]
      exact ⟨hrest.2, hrest.1⟩
    · intro ⟨hl, hv⟩
      have hrest := vmx_enable_rest_spec m none
      simp only [vmx_enable, h1, h2, h3, h4, h5, h6, h7, Bool.not_true, Bool.false_eq_true,
        if_false]
      rw [if_neg (fun hc => hc.elim hl hv)]
      exact ⟨hrest.2, hrest.1⟩
  · intro ⟨hl, hv⟩
    have hres : vmx_enable m = ⟨status_t.ERR_NOT_SUPPORTED, none, none, false⟩ := by
      simp only [vmx_enable]
      split_ifs <;> first | rfl | tauto
    simp [hres]

/-- Witness for C4: a machine whose capability MSRs report every
required feature and whose feature-control MSR reads 0 (unlocked) gets
the MSR rewritten with LOCK|VMXON (value 5) and is not rejected. -/
theorem vmx_enable_feature_control_witness :
    vmx_enable_caps_ok
      ⟨2 ^ 54 + 2 ^ 55, 2 ^ 8, 2 ^ 6 + 2 ^ 14 + 2 ^ 20 + 2 ^ 21 + 2 ^ 25 + 2 ^ 26,
       0, 2 ^ 64 - 1, 0, 2 ^ 64 - 1, 2 ^ 64 - 1, 0, 2 ^ 64 - 1, true⟩ = true ∧
    (vmx_enable
      ⟨2 ^ 54 + 2 ^ 55, 2 ^ 8, 2 ^ 6 + 2 ^ 14 + 2 ^ 20 + 2 ^ 21 + 2 ^ 25 + 2 ^ 26,
       0, 2 ^ 64 - 1, 0, 2 ^ 64 - 1, 2 ^ 64 - 1, 0, 2 ^ 64 - 1, true⟩).fc_write = some 5 ∧
    (vmx_enable
      ⟨2 ^ 54 + 2 ^ 55, 2 ^ 8, 2 ^ 6 + 2 ^ 14 + 2 ^ 20 + 2 ^ 21 + 2 ^ 25 + 2 ^ 26,
       0, 2 ^ 64 - 1, 0, 2 ^ 64 - 1, 2 ^ 64 - 1, 0, 2 ^ 64 - 1, true⟩).status ≠
      status_t.ERR_NOT_SUPPORTED := by
  have h := ((vmx_enable_feature_control
    ⟨2 ^ 54 + 2 ^ 55, 2 ^ 8, 2 ^ 6 + 2 ^ 14 + 2 ^ 20 + 2 ^ 21 + 2 ^ 25 + 2 ^ 26,
     0, 2 ^ 64 - 1, 0, 2 ^ 64 - 1, 2 ^ 64 - 1, 0, 2 ^ 64 - 1, true⟩).1 (by decide)).1 (by decide)
  exact ⟨by decide, h.1.trans (by decide), h.2⟩

/-- Claim C1 (counterexample): with `true_msr = 1` (`allowed_0 = 1`,
`allowed_1 = 0`, violating the hardware invariant `allowed_0 ⊆
allowed_1`) and `set = clear = 0`, the helper succeeds and writes the
value 1, in which bit 0 — a bit outside `allowed_1` — is set, so the
claim's "every bit outside allowed_1 is clear" fails. -/
theorem set_vmcs_control_bit_outside_allowed1 :
    set_vmcs_control 1 0 0 0 = (status_t.NO_ERROR, some 1) ∧
    (1 : Nat) &&& compl32 (BITS_SHIFT 1 63 32) ≠ 0 := by
  decide

/-- Claim C1 (amended): under the hardware invariant that every
must-be-one bit is also may-be-one (`allowed_0 AND NOT allowed_1 = 0`,
which Intel guarantees for the capability MSRs), every successful call
writes `allowed_0 | defaults | set` where `defaults` are the bits of
`old_msr`'s low 32 bits restricted to the flexible bits
(`allowed_0 XOR allowed_1`) not mentioned in `set` or `clear`; in that
value every must-be-one bit of `allowed_0` is set, every bit outside
`allowed_1` is clear, every requested `set` bit is 1 and every
requested `clear` bit is 0. -/
theorem set_vmcs_control_success_spec (true_msr old_msr set clear v : Nat)
    (h01 : BITS true_msr 31 0 &&& compl32 (BITS_SHIFT true_msr 63 32) = 0)
    (hs : set_vmcs_control true_msr old_msr set clear = (status_t.NO_ERROR, some v)) :
    v = BITS true_msr 31 0 |||
        ((BITS true_msr 31 0 ^^^ BITS_SHIFT true_msr 63 32) &&&
          compl32 (set ||| clear) &&& BITS old_msr 31 0) ||| set ∧
    BITS true_msr 31 0 &&& v = BITS true_msr 31 0 ∧
    v &&& compl32 (BITS_SHIFT true_msr 63 32) = 0 ∧
    set &&& v = set ∧
    v &&& clear = 0 := by
  have ha0lt := BITS_31_0_lt true_msr
  have ha1lt := BITS_SHIFT_63_32_lt true_msr
  simp only [set_vmcs_control] at hs
  split at hs
  · simp at hs
  · rename_i h1
    split at hs
    · simp at hs
    · rename_i h2
      split at hs
      · simp at hs
      · rename_i h3
        rw [not_ne_iff] at h1 h2 h3
        simp only [Prod.mk.injEq, Option.some.injEq, true_and] at hs
        subst hs
        refine ⟨rfl, ?_, ?_, ?_, ?_⟩
        · apply land_absorb_of_testBit
          intro i hi
          simp [Nat.testBit_or, hi]
        · apply land_eq_zero_of_testBit
          intro i hv
          rw [testBit_compl32]
          rcases Nat.lt_or_ge i 32 with hi | hi
          · have ha1 : (BITS_SHIFT true_msr 63 32).testBit i = true := by
              simp only [Nat.testBit_or, Bool.or_eq_true] at hv
              rcases hv with (h | h) | h
              · have hcmp := testBit_disjoint_of_land_eq_zero h01 i h
                rw [testBit_compl32, decide_eq_true hi] at hcmp
                cases hb : (BITS_SHIFT true_msr 63 32).testBit i
                · rw [hb] at hcmp
                  exact absurd hcmp (by simp)
                · rfl
              · simp only [Nat.testBit_and, Bool.and_eq_true] at h
                obtain ⟨⟨hflex, _⟩, _⟩ := h
                rw [Nat.testBit_xor] at hflex
                cases hb : (BITS_SHIFT true_msr 63 32).testBit i
                · rw [hb] at hflex
                  simp only [Bool.xor_false] at hflex
                  have hcmp := testBit_disjoint_of_land_eq_zero h01 i hflex
                  rw [testBit_compl32, decide_eq_true hi, hb] at hcmp
                  exact absurd hcmp (by simp)
                · rfl
              · exact testBit_imp_of_land_eq h1 i h
            rw [ha1, decide_eq_true hi]
            rfl
          · rw [decide_eq_false (by omega), testBit_false_of_ge ha1lt hi]
            rfl
        · apply land_absorb_of_testBit
          intro i hi
          simp [Nat.testBit_or, hi]
        · apply land_eq_zero_of_testBit
          intro i hv
          cases hc : clear.testBit i
          · rfl
          · exfalso
            have hclo := testBit_imp_of_land_eq h2 i hc
            rw [testBit_compl32] at hclo
            rcases Nat.lt_or_ge i 32 with hi | hi
            · rw [decide_eq_true hi] at hclo
              have ha0b : (BITS true_msr 31 0).testBit i = false := by
                cases hb : (BITS true_msr 31 0).testBit i
                · rfl
                · rw [hb] at hclo
                  exact absurd hclo (by simp)
              simp only [Nat.testBit_or, Bool.or_eq_true] at hv
              rcases hv with (h | h) | h
              · rw [ha0b] at h
                exact Bool.noConfusion h
              · simp only [Nat.testBit_and, Bool.and_eq_true] at h
                obtain ⟨⟨_, hmask⟩, _⟩ := h
                rw [testBit_compl32, decide_eq_true hi] at hmask
                have hor : (set ||| clear).testBit i = false := by
                  cases hb : (set ||| clear).testBit i
                  · rfl
                  · rw [hb] at hmask
                    exact absurd hmask (by simp)
                rw [Nat.testBit_or] at hor
                rcases Bool.or_eq_false_iff.mp hor with ⟨_, hcf⟩
                rw [hc] at hcf
                exact Bool.noConfusion hcf
              · have := testBit_disjoint_of_land_eq_zero h3 i h
                rw [hc] at this
                exact Bool.noConfusion this
            · rw [decide_eq_false (by omega), testBit_false_of_ge ha0lt hi] at hclo
              exact absurd hclo (by simp)

/-- Witness for C1 (amended): `true_msr` with `allowed_0 = 1`,
`allowed_1 = 3`, `old_msr = 2`, `set = clear = 0` succeeds writing 3,
and the theorem's conclusions hold there. -/
theorem set_vmcs_control_success_spec_witness :
    BITS (1 + 3 * 2 ^ 32) 31 0 &&& compl32 (BITS_SHIFT (1 + 3 * 2 ^ 32) 63 32) = 0 ∧
    BITS (1 + 3 * 2 ^ 32) 31 0 &&& 3 = BITS (1 + 3 * 2 ^ 32) 31 0 ∧
    (3 : Nat) &&& compl32 (BITS_SHIFT (1 + 3 * 2 ^ 32) 63 32) = 0 ∧
    (0 : Nat) &&& 3 = 0 ∧
    (3 : Nat) &&& 0 = 0 := by
  have h := set_vmcs_control_success_spec (1 + 3 * 2 ^ 32) 2 0 0 3 (by decide) (by decide)
  exact ⟨by decide, h.2.1, h.2.2.1, h.2.2.2.1, h.2.2.2.2⟩

end Hv
